/-
Verification of the AASHTO 1993 rigid-pavement design core
(aashto_rigid_pavement.py): bisection root finder, Odemark equivalent
thickness, composite subgrade reaction model, the AASHTO capacity
equation and the required-thickness solver.

The Python floats are modelled as real numbers; math.log10 is Real.logb 10,
x ** y on nonnegative reals is Real.rpow.  A Python exception that can
escape a function is modelled with Except Unit: Except.error () marks a
raised exception, Except.ok a normal return.
-/

import Mathlib

noncomputable section

namespace AASHTO

/-! ## Numeric helper lemmas for rational bounds on rpow and logb -/

/-- Raising a rational-exponent power to the denominator recovers integer powers. -/
lemma rpow_ratio_pow {x : ℝ} (hx : 0 ≤ x) (p q : ℕ) (hq : q ≠ 0) :
    (x ^ ((p : ℝ) / q)) ^ q = x ^ p := by
  rw [← Real.rpow_natCast (x ^ ((p : ℝ) / q)) q, ← Real.rpow_mul hx,
    div_mul_cancel₀ _ (by exact_mod_cast hq : (q : ℝ) ≠ 0), Real.rpow_natCast]

/-- Upper bound on a rational power from an integer-power comparison. -/
lemma rpow_ratio_le {x M : ℝ} (p q : ℕ) (hq : q ≠ 0) (hx : 0 ≤ x) (hM : 0 ≤ M)
    (h : x ^ p ≤ M ^ q) : x ^ ((p : ℝ) / q) ≤ M := by
  refine le_of_pow_le_pow_left₀ hq hM ?_
  rw [rpow_ratio_pow hx p q hq]
  exact h

/-- Lower bound on a rational power from an integer-power comparison. -/
lemma le_rpow_ratio {x m : ℝ} (p q : ℕ) (hq : q ≠ 0) (hx : 0 ≤ x)
    (h : m ^ q ≤ x ^ p) : m ≤ x ^ ((p : ℝ) / q) := by
  refine le_of_pow_le_pow_left₀ hq (Real.rpow_nonneg hx _) ?_
  rw [rpow_ratio_pow hx p q hq]
  exact h

/-- Upper bound on a base-10 logarithm from an integer-power comparison. -/
lemma logb10_le_ratio {x : ℝ} (p q : ℕ) (hq : q ≠ 0) (hx : 0 < x)
    (h : x ^ q ≤ (10 : ℝ) ^ p) : Real.logb 10 x ≤ (p : ℝ) / q := by
  rw [Real.logb_le_iff_le_rpow (by norm_num) hx]
  exact le_rpow_ratio p q hq (by norm_num) h

/-- Lower bound on a base-10 logarithm from an integer-power comparison. -/
lemma ratio_le_logb10 {x : ℝ} (p q : ℕ) (hq : q ≠ 0) (hx : 0 < x)
    (h : (10 : ℝ) ^ p ≤ x ^ q) : (p : ℝ) / q ≤ Real.logb 10 x := by
  rw [Real.le_logb_iff_rpow_le (by norm_num) hx]
  exact rpow_ratio_le p q hq (by norm_num) hx.le h

/-- Crude but sufficient bound on the natural logarithm of 10. -/
lemma log_ten_le : Real.log 10 ≤ 2.5 := by
  rw [Real.log_le_iff_le_exp (by norm_num)]
  have hsplit : Real.exp (2.5 : ℝ) = Real.exp 1 * Real.exp 1 * Real.exp 0.5 := by
    rw [← Real.exp_add, ← Real.exp_add]; norm_num
  have he : (2.7182818283 : ℝ) < Real.exp 1 := Real.exp_one_gt_d9
  have hh : (1.5 : ℝ) ≤ Real.exp 0.5 := by
    have := Real.add_one_le_exp (0.5 : ℝ); linarith
  have hsq : (2.7182818283 : ℝ) * 2.7182818283 ≤ Real.exp 1 * Real.exp 1 := by nlinarith
  rw [hsplit]
  nlinarith [Real.exp_pos (1 : ℝ), Real.exp_pos (0.5 : ℝ)]

/-! ## Data model -/

/-- One base/subbase course, as consumed from the layer dictionaries:
elastic modulus in psi and thickness in inches. -/
structure Layer where
  E_psi : ℝ
  thickness_inch : ℝ

/-- Per-layer breakdown record produced by the Odemark transformation
(mirrors the calculation_details dictionaries). -/
structure OdemarkDetail where
  layer : ℕ
  h_actual_inch : ℝ
  E_psi : ℝ
  modulus_ratio : ℝ
  h_equiv_inch : ℝ

/-- The triple returned by calculate_composite_k_odemark
(k_effective, k_composite, h_equiv); the details dictionary is derived data. -/
structure KResult where
  k_effective : ℝ
  k_composite : ℝ
  h_equiv : ℝ

/-- Design parameter bundle consumed by calculate_W18_rigid. -/
structure Params where
  ZR : ℝ
  S0 : ℝ
  pt : ℝ
  Sc : ℝ
  Cd : ℝ
  J : ℝ
  Ec : ℝ
  k : ℝ
  delta_PSI : ℝ

/-! ## Bisection root finder (bisection_method) -/

/-- Loop body of bisection_method: fuel counts the remaining iterations of
the Python for-loop; on exhaustion the current midpoint is returned. -/
def bisection_loop (func : ℝ → ℝ) (tol : ℝ) : ℕ → ℝ → ℝ → ℝ → ℝ → ℝ
  | 0, a, b, _, _ => (a + b) / 2
  | n + 1, a, b, fa, fb =>
    let c := (a + b) / 2
    let fc := func c
    if |fc| < tol ∨ (b - a) / 2 < tol then c
    else if fa * fc < 0 then bisection_loop func tol n a c fa fc
    else bisection_loop func tol n c b fc fb

/-- Bisection method of the source; returns none when func a and func b
have the same strict sign (no root bracketed).  The Python defaults are
tol = 1e-6 and max_iter = 100, supplied explicitly by callers here. -/
def bisection_method (func : ℝ → ℝ) (a b tol : ℝ) (max_iter : ℕ) : Option ℝ :=
  if func a * func b > 0 then none
  else some (bisection_loop func tol max_iter a b (func a) (func b))

/-! ## Odemark equivalent thickness (calculate_odemark_equivalent_thickness) -/

/-- Fold over the layer list accumulating total equivalent thickness and
the per-layer details; idx is the 1-based enumerate position.  A layer
with non-positive thickness or modulus is skipped. -/
def odemark_fold (MR pf : ℝ) (idx : ℕ) : List Layer → ℝ × List OdemarkDetail
  | [] => (0, [])
  | layer :: rest =>
    let tail := odemark_fold MR pf (idx + 1) rest
    if 0 < layer.thickness_inch ∧ 0 < layer.E_psi then
      let modulus_ratio := (layer.E_psi / MR) ^ ((1 : ℝ) / 3)
      let h_e := layer.thickness_inch * modulus_ratio * pf
      (h_e + tail.1,
        ⟨idx, layer.thickness_inch, layer.E_psi, modulus_ratio, h_e⟩ :: tail.2)
    else tail

/-- Odemark equivalent thickness of a layer stack over the subgrade:
h_e = h * (E_layer/MR)^(1/3) * ((1-nu_sg^2)/(1-nu_c^2))^(1/3), summed over
the valid layers; empty list yields (0, []). -/
def calculate_odemark_equivalent_thickness (layers : List Layer) (subgrade_MR : ℝ)
    (nu_concrete nu_subgrade : ℝ) : ℝ × List OdemarkDetail :=
  if layers.isEmpty then (0, [])
  else
    let poisson_factor := ((1 - nu_subgrade ^ 2) / (1 - nu_concrete ^ 2)) ^ ((1 : ℝ) / 3)
    odemark_fold subgrade_MR poisson_factor 1 layers

/-! ## Composite subgrade reaction (calculate_composite_k_odemark) -/

/-- Total equivalent thickness used by the composite-k computation
(the source calls calculate_odemark_equivalent_thickness with the default
Poisson ratios 0.15 and 0.40). -/
def h_equiv_of (layers : List Layer) (MR : ℝ) : ℝ :=
  (calculate_odemark_equivalent_thickness layers MR 0.15 0.40).1

/-- Thickness-weighted equivalent modulus E_eq = (Sum h sqrt E / Sum h)^2,
falling back to the subgrade modulus when the total thickness is not
positive.  Real.sqrt totalises math.sqrt; the raising branch for a
negative modulus is modelled in calculate_composite_k_odemark itself. -/
def E_eq_of (layers : List Layer) (MR : ℝ) : ℝ :=
  let total_h := (layers.map Layer.thickness_inch).sum
  let sum_h_sqrt_E := (layers.map fun l => l.thickness_inch * Real.sqrt l.E_psi).sum
  if 0 < total_h then (sum_h_sqrt_E / total_h) ^ 2 else MR

/-- Composite k before the loss-of-support adjustment: the enhancement
factor 1 + 0.025 h_equiv^0.8 (E_eq/MR)^0.33 applied to k_subgrade, clamped
above by 1500 first and below by k_subgrade second, exactly as in the
source (min then max). -/
def k_composite_of (layers : List Layer) (MR : ℝ) : ℝ :=
  if 0 < h_equiv_of layers MR then
    max (min
      (MR / 19.4 *
        (1 + 0.025 * h_equiv_of layers MR ^ (0.8 : ℝ) * (E_eq_of layers MR / MR) ^ (0.33 : ℝ)))
      1500) (MR / 19.4)
  else MR / 19.4

open Classical in
/-- Composite modulus of subgrade reaction.  The empty-layer branch returns
early with the 10^(-LS*0.3) derating and no clamping; the non-empty branch
uses 10^(-LS*0.25) and clamps k_effective to [25, 1000].  Except.error ()
models the ValueError raised by math.sqrt when the h_equiv > 0 branch sums
h * sqrt(E) over a layer with negative modulus. -/
def calculate_composite_k_odemark (layers : List Layer) (subgrade_MR LS : ℝ) :
    Except Unit KResult :=
  let k_subgrade := subgrade_MR / 19.4
  if layers.isEmpty then
    Except.ok ⟨if 0 < LS then k_subgrade * (10 : ℝ) ^ (-LS * 0.3) else k_subgrade,
      k_subgrade, 0⟩
  else if 0 < h_equiv_of layers subgrade_MR ∧ ∃ l ∈ layers, l.E_psi < 0 then
    Except.error ()
  else
    let k_composite := k_composite_of layers subgrade_MR
    let k_effective :=
      if 0 < LS then k_composite * (10 : ℝ) ^ (-LS * 0.25) else k_composite
    Except.ok ⟨max (min k_effective 1000) 25, k_composite, h_equiv_of layers subgrade_MR⟩

/-- Wrapper kept for parity with the source: only k_effective, with LS = 0. -/
def calculate_composite_k (layers : List Layer) (subgrade_MR : ℝ) : Except Unit ℝ :=
  (calculate_composite_k_odemark layers subgrade_MR 0).map KResult.k_effective

/-! ## AASHTO 1993 rigid-pavement capacity equation (calculate_W18_rigid) -/

/-- Numerator inside the logarithm of term 2. -/
def inner_num_of (D : ℝ) (p : Params) : ℝ :=
  p.Sc * p.Cd * (D ^ (0.75 : ℝ) - 1.132)

/-- Denominator inside the logarithm of term 2. -/
def inner_denom_of (D : ℝ) (p : Params) : ℝ :=
  215.63 * p.J * (D ^ (0.75 : ℝ) - 18.42 / (p.Ec / p.k) ^ (0.25 : ℝ))

/-- The AASHTO 1993 rigid equation for log10(W18); the source returns the
sentinel -999 when the numerator or denominator of term 2 is non-positive
(the guard precedes any evaluation of the term-2 logarithm). -/
def calculate_W18_rigid (D : ℝ) (p : Params) : ℝ :=
  if inner_num_of D p ≤ 0 ∨ inner_denom_of D p ≤ 0 then -999
  else
    p.ZR * p.S0 + 7.35 * Real.logb 10 (D + 1) - 0.06 +
      Real.logb 10 (p.delta_PSI / 3) / (1 + 1.624e7 / (D + 1) ^ (8.46 : ℝ)) +
      (4.22 - 0.32 * p.pt) * Real.logb 10 (inner_num_of D p / inner_denom_of D p)

/-! ## Required-thickness solver (find_required_thickness) -/

/-- Thickness solver.  math.log10(W18_design) is evaluated before the try
block in the source, so a non-positive design load raises out of the
function: Except.error ().  Inside the try nothing can raise in the real
model, and the Python defaults D_min = 6, D_max = 20, tol = 1e-6,
max_iter = 100 are made explicit. -/
def find_required_thickness (W18_design : ℝ) (p : Params) (D_min D_max : ℝ) :
    Except Unit (Option ℝ) :=
  if W18_design ≤ 0 then Except.error ()
  else
    let log_W18_design := Real.logb 10 W18_design
    if 0 < calculate_W18_rigid D_min p - log_W18_design then Except.ok (some D_min)
    else if calculate_W18_rigid D_max p - log_W18_design < 0 then
      Except.ok (some (D_max + 1))
    else
      Except.ok (bisection_method
        (fun D => calculate_W18_rigid D p - log_W18_design) D_min D_max 1e-6 100)

end AASHTO

end

namespace AASHTO

/-! ## Evaluation lemmas for calculate_composite_k_odemark -/

/-- Empty layer list: early return with exponent -LS*0.3 and no clamp. -/
lemma cck_empty (MR LS : ℝ) :
    calculate_composite_k_odemark [] MR LS =
      Except.ok ⟨if 0 < LS then MR / 19.4 * (10 : ℝ) ^ (-LS * 0.3) else MR / 19.4,
        MR / 19.4, 0⟩ := by
  simp [calculate_composite_k_odemark]

/-- Non-empty layer list with no negative modulus: the normal return. -/
lemma cck_ok (layers : List Layer) (MR LS : ℝ) (hne : layers ≠ [])
    (hE : ∀ l ∈ layers, 0 ≤ l.E_psi) :
    calculate_composite_k_odemark layers MR LS =
      Except.ok ⟨max (min (if 0 < LS then
            k_composite_of layers MR * (10 : ℝ) ^ (-LS * 0.25)
          else k_composite_of layers MR) 1000) 25,
        k_composite_of layers MR, h_equiv_of layers MR⟩ := by
  have h1 : ¬(layers.isEmpty = true) := by simpa using hne
  have h2 : ¬(0 < h_equiv_of layers MR ∧ ∃ l ∈ layers, l.E_psi < 0) := by
    rintro ⟨-, l, hl, hneg⟩
    exact absurd (hE l hl) (not_le.mpr hneg)
  simp only [calculate_composite_k_odemark, if_neg h1, if_neg h2]

/-- Bounds satisfied by the composite k in every case. -/
lemma k_composite_of_bounds (layers : List Layer) (MR : ℝ) :
    MR / 19.4 ≤ k_composite_of layers MR ∧
      k_composite_of layers MR ≤ max (MR / 19.4) 1500 := by
  unfold k_composite_of
  split_ifs
  · exact ⟨le_max_right _ _,
      max_le ((min_le_right _ _).trans (le_max_right _ _)) (le_max_left _ _)⟩
  · exact ⟨le_rfl, le_max_left _ _⟩

/-- A single layer of zero thickness contributes no equivalent thickness. -/
lemma h_equiv_single_zero : h_equiv_of [⟨100, 0⟩] 1940 = 0 := by
  simp [h_equiv_of, calculate_odemark_equivalent_thickness, odemark_fold]

/-- With no equivalent thickness the composite k is the subgrade k. -/
lemma kc_single_zero : k_composite_of [⟨100, 0⟩] 1940 = 100 := by
  simp only [k_composite_of, h_equiv_single_zero]
  norm_num

/-- Concrete non-empty evaluation used by the witnesses. -/
lemma cck_single_zero :
    calculate_composite_k_odemark [⟨100, 0⟩] 1940 0 = Except.ok ⟨100, 100, 0⟩ := by
  rw [cck_ok _ _ _ (by simp) ?hE]
  case hE =>
    intro l hl
    simp only [List.mem_singleton] at hl
    subst hl
    norm_num
  simp only [kc_single_zero, h_equiv_single_zero]
  norm_num

end AASHTO

namespace AASHTO

/-! ## Claim C1 -/

/-- Claim C1 (counterexample): for the empty layer list with MR = 19.4 and
LS = 0, solve_subgrade_reaction returns k_effective = 1, which does not lie
in [25, 1000]: the empty-layer early return skips the clamp. -/
theorem C1_counterexample :
    calculate_composite_k_odemark [] 19.4 0 = Except.ok ⟨1, 1, 0⟩ ∧
      ¬(25 ≤ (1 : ℝ) ∧ (1 : ℝ) ≤ 1000) := by
  refine ⟨?_, by norm_num⟩
  rw [cck_empty]
  norm_num

/-- Claim C1 (amended): for every non-empty layer list, every MR and every
LS, whenever solve_subgrade_reaction returns normally the k_effective lies
in [25, 1000]; the empty-layer early return is not clamped. -/
theorem C1_amended (layers : List Layer) (MR LS : ℝ) (r : KResult)
    (hne : layers ≠ []) (hMR : 0 < MR) (hLS0 : 0 ≤ LS) (hLS3 : LS ≤ 3)
    (hr : calculate_composite_k_odemark layers MR LS = Except.ok r) :
    25 ≤ r.k_effective ∧ r.k_effective ≤ 1000 := by
  have h1 : ¬(layers.isEmpty = true) := by simpa using hne
  simp only [calculate_composite_k_odemark, if_neg h1] at hr
  by_cases herr : 0 < h_equiv_of layers MR ∧ ∃ l ∈ layers, l.E_psi < 0
  · rw [if_pos herr] at hr
    exact absurd hr (by simp)
  · rw [if_neg herr] at hr
    simp only [Except.ok.injEq] at hr
    subst hr
    exact ⟨le_max_right _ _, max_le ((min_le_right _ _)) (by norm_num)⟩

/-- Witness for C1_amended at a concrete non-empty input. -/
theorem C1_witness : 25 ≤ (100 : ℝ) ∧ (100 : ℝ) ≤ 1000 :=
  C1_amended [⟨100, 0⟩] 1940 0 ⟨100, 100, 0⟩ (by simp) (by norm_num) le_rfl
    (by norm_num) cck_single_zero

/-! ## Claim C2 -/

/-- Claim C2 (counterexample): for the empty layer list, MR = 19.4 and
LS = 1, the code derates with exponent -LS*0.3, returning 10^(-0.3), while
the claimed formula k_composite * 10^(-LS*0.25) gives 1 * 10^(-0.25). -/
theorem C2_counterexample :
    calculate_composite_k_odemark [] 19.4 1 =
        Except.ok ⟨(10 : ℝ) ^ (-(0.3) : ℝ), 1, 0⟩ ∧
      ¬((10 : ℝ) ^ (-(0.3) : ℝ) = 1 * (10 : ℝ) ^ (-(0.25) : ℝ)) := by
  constructor
  · rw [cck_empty]
    norm_num
  · rw [one_mul]
    exact ne_of_lt ((Real.rpow_lt_rpow_left_iff (by norm_num)).mpr (by norm_num))

/-- Claim C2 (amended): for every non-empty layer list, solve_subgrade_reaction
derates with k_effective = k_composite * 10^(-LS*0.25) before clamping to
[25, 1000] when LS > 0, and k_effective = clamp(k_composite, 25, 1000) when
LS = 0; the empty-layer branch instead uses exponent -LS*0.3 and no clamp. -/
theorem C2_amended (layers : List Layer) (MR LS : ℝ) (r : KResult)
    (hne : layers ≠ [])
    (hr : calculate_composite_k_odemark layers MR LS = Except.ok r) :
    (0 < LS →
      r.k_effective = max (min (r.k_composite * (10 : ℝ) ^ (-LS * 0.25)) 1000) 25) ∧
    (LS = 0 → r.k_effective = max (min r.k_composite 1000) 25) := by
  have h1 : ¬(layers.isEmpty = true) := by simpa using hne
  simp only [calculate_composite_k_odemark, if_neg h1] at hr
  by_cases herr : 0 < h_equiv_of layers MR ∧ ∃ l ∈ layers, l.E_psi < 0
  · rw [if_pos herr] at hr
    exact absurd hr (by simp)
  · rw [if_neg herr] at hr
    simp only [Except.ok.injEq] at hr
    subst hr
    constructor
    · intro hLS
      simp only [if_pos hLS]
    · intro hLS
      subst hLS
      simp only [if_neg (lt_irrefl (0 : ℝ))]

/-- Witness for C2_amended at a concrete non-empty input with LS = 0. -/
theorem C2_witness : (100 : ℝ) = max (min (100 : ℝ) 1000) 25 :=
  (C2_amended [⟨100, 0⟩] 1940 0 ⟨100, 100, 0⟩ (by simp) cck_single_zero).2 rfl

end AASHTO

namespace AASHTO

/-! ## Claim C3 -/

/-- Claim C3 (counterexample): empty layer list (all of whose layers are
vacuously positive), MR = 38800, LS = 0: the code returns
k_composite = k_subgrade = 2000, violating the claimed k_composite <= 1500
(the 1500 cap is only applied on the non-empty branch, and even there the
final max with k_subgrade can exceed it). -/
theorem C3_counterexample :
    calculate_composite_k_odemark [] 38800 0 = Except.ok ⟨2000, 2000, 0⟩ ∧
      ¬((2000 : ℝ) ≤ 1500) := by
  refine ⟨?_, by norm_num⟩
  rw [cck_empty]
  norm_num

/-- Claim C3 (amended): for valid inputs, k_subgrade <= k_composite <=
max(k_subgrade, 1500) and k_effective <= max(k_composite, 25); on non-empty
layer lists additionally 25 <= k_effective <= 1000 with
k_effective = clamp(k_composite, 25, 1000) when LS = 0, while on the empty
list k_effective = k_composite exactly when LS = 0 (no clamp). -/
theorem C3_amended (layers : List Layer) (MR LS : ℝ) (r : KResult)
    (hlay : ∀ l ∈ layers, 0 < l.thickness_inch ∧ 0 < l.E_psi)
    (hMR : 0 < MR) (hLS0 : 0 ≤ LS) (hLS3 : LS ≤ 3)
    (hr : calculate_composite_k_odemark layers MR LS = Except.ok r) :
    MR / 19.4 ≤ r.k_composite ∧ r.k_composite ≤ max (MR / 19.4) 1500 ∧
      r.k_effective ≤ max r.k_composite 25 ∧
      (layers ≠ [] → 25 ≤ r.k_effective ∧ r.k_effective ≤ 1000 ∧
        (LS = 0 → r.k_effective = max (min r.k_composite 1000) 25)) ∧
      (layers = [] → LS = 0 → r.k_effective = r.k_composite) := by
  by_cases hemp : layers = []
  · subst hemp
    rw [cck_empty] at hr
    simp only [Except.ok.injEq] at hr
    subst hr
    have hks : (0 : ℝ) ≤ MR / 19.4 := by positivity
    refine ⟨le_rfl, le_max_left _ _, ?_, fun h => absurd rfl h, fun _ hLS => by
      subst hLS
      simp only [if_neg (lt_irrefl (0 : ℝ))]⟩
    by_cases hLS : 0 < LS
    · simp only [if_pos hLS]
      refine le_max_of_le_left ?_
      refine mul_le_of_le_one_right hks ?_
      exact Real.rpow_le_one_of_one_le_of_nonpos (by norm_num) (by nlinarith)
    · simp only [if_neg hLS]
      exact le_max_left _ _
  · have hE : ∀ l ∈ layers, 0 ≤ l.E_psi := fun l hl => (hlay l hl).2.le
    rw [cck_ok layers MR LS hemp hE] at hr
    simp only [Except.ok.injEq] at hr
    subst hr
    obtain ⟨hkc1, hkc2⟩ := k_composite_of_bounds layers MR
    have hkc0 : (0 : ℝ) ≤ k_composite_of layers MR := le_trans (by positivity) hkc1
    have hderate : (if 0 < LS then
        k_composite_of layers MR * (10 : ℝ) ^ (-LS * 0.25)
      else k_composite_of layers MR) ≤ k_composite_of layers MR := by
      by_cases hLS : 0 < LS
      · simp only [if_pos hLS]
        refine mul_le_of_le_one_right hkc0 ?_
        exact Real.rpow_le_one_of_one_le_of_nonpos (by norm_num) (by nlinarith)
      · simp only [if_neg hLS]
        exact le_rfl
    refine ⟨hkc1, hkc2, ?_, fun _ => ⟨le_max_right _ _,
      max_le (min_le_right _ _) (by norm_num), fun hLS => by
        subst hLS
        simp only [if_neg (lt_irrefl (0 : ℝ))]⟩,
      fun h => absurd h hemp⟩
    exact max_le ((min_le_left _ _).trans (hderate.trans (le_max_left _ _)))
      (le_max_right _ _)

/-- Witness for C3_amended at the empty list with MR = 19.4 and LS = 0. -/
theorem C3_witness :
    (19.4 : ℝ) / 19.4 ≤ (1 : ℝ) ∧ (1 : ℝ) ≤ max ((19.4 : ℝ) / 19.4) 1500 := by
  have h := C3_amended [] 19.4 0 ⟨1, 1, 0⟩ (by simp) (by norm_num) le_rfl
    (by norm_num) (by rw [cck_empty]; norm_num)
  exact ⟨h.1, h.2.1⟩

end AASHTO

namespace AASHTO

/-! ## Claim C10 -/

/-- The two-layer stack with one valid layer and one negative-modulus layer
has positive equivalent thickness (the valid layer alone contributes). -/
lemma h10_pos : 0 < h_equiv_of [⟨100, 10⟩, ⟨-50, 5⟩] 1000 := by
  simp only [h_equiv_of, calculate_odemark_equivalent_thickness, odemark_fold,
    List.isEmpty_cons, Bool.false_eq_true, if_false]
  norm_num
  positivity

/-- Claim C10: on a list holding one valid layer (E = 100, h = 10) and one
layer with negative modulus (E = -50, h = 5), calculate_composite_k_odemark
raises (the h * sqrt(E) sum runs over every layer), even though the
equivalent-thickness step skips the invalid layer, returning the very same
total as for the one-layer list. -/
theorem C10_negative_modulus_raises :
    calculate_composite_k_odemark [⟨100, 10⟩, ⟨-50, 5⟩] 1000 0 = Except.error () ∧
      h_equiv_of [⟨100, 10⟩, ⟨-50, 5⟩] 1000 = h_equiv_of [⟨100, 10⟩] 1000 := by
  constructor
  · simp only [calculate_composite_k_odemark]
    rw [if_neg (by simp), if_pos ⟨h10_pos, ⟨-50, 5⟩, by simp, by norm_num⟩]
  · simp only [h_equiv_of, calculate_odemark_equivalent_thickness, odemark_fold,
      List.isEmpty_cons, Bool.false_eq_true, if_false]
    norm_num

end AASHTO

namespace AASHTO

/-! ## Claim C7 -/

/-- Test objective of the bisection property: f(D) = D^2 - 4. -/
def f0 : ℝ → ℝ := fun D => D ^ 2 - 4

/-- Invariant proof for the bisection loop on f0: starting from a bracket
with 0 <= a < 2 < b <= 3 whose width is below 2^fuel * 1e-6, the returned
point is within 1e-6 of the root 2. -/
lemma bisection_loop_f0 :
    ∀ (n : ℕ) (a b fb : ℝ), 0 ≤ a → a < 2 → 2 < b → b ≤ 3 →
      b - a < 2 ^ n * 1e-6 →
      |bisection_loop f0 1e-6 n a b (a ^ 2 - 4) fb - 2| < 1e-6 := by
  intro n
  induction n with
  | zero =>
    intro a b fb h0 h2 hb2 hb3 hw
    norm_num at hw
    simp only [bisection_loop]
    rw [abs_lt]
    constructor <;> nlinarith
  | succ n ih =>
    intro a b fb h0 h2 hb2 hb3 hw
    have hp : (2 : ℝ) ^ (n + 1) = 2 * 2 ^ n := by ring
    have hp0 : (0 : ℝ) < 2 ^ n := by positivity
    simp only [bisection_loop]
    by_cases hret : |f0 ((a + b) / 2)| < 1e-6 ∨ (b - a) / 2 < 1e-6
    · rw [if_pos hret]
      set c := (a + b) / 2 with hc
      rcases hret with hfc | hwid
      · simp only [f0] at hfc
        rw [abs_lt] at hfc ⊢
        constructor <;> nlinarith
      · rw [abs_lt]
        constructor <;> nlinarith
    · rw [if_neg hret]
      push_neg at hret
      obtain ⟨hfc, hwid⟩ := hret
      set c := (a + b) / 2 with hc
      have hfa : a ^ 2 - 4 < 0 := by nlinarith
      by_cases hsig : (a ^ 2 - 4) * f0 c < 0
      · rw [if_pos hsig]
        have hfc_pos : 0 < f0 c := by
          rcases lt_trichotomy (f0 c) 0 with h | h | h
          · nlinarith
          · rw [h] at hfc; norm_num at hfc
          · exact h
        have hc2 : 2 < c := by
          simp only [f0] at hfc_pos
          nlinarith
        exact ih a c (f0 c) h0 h2 hc2 (by nlinarith) (by nlinarith)
      · rw [if_neg hsig]
        push_neg at hsig
        have hfc_neg : f0 c < 0 := by
          rcases lt_trichotomy (f0 c) 0 with h | h | h
          · exact h
          · rw [h] at hfc; norm_num at hfc
          · nlinarith
        have hc2 : c < 2 := by
          simp only [f0] at hfc_neg
          nlinarith
        have hc0 : 0 ≤ c := by nlinarith
        have hrec := ih c b fb hc0 hc2 hb2 hb3 (by nlinarith)
        simpa [f0] using hrec

/-- Claim C7: bisection_method on f(D) = D^2 - 4 over [0, 3] with tolerance
1e-6 and at most 100 iterations returns a value within 1e-6 of 2, and for
any function whose bracket endpoints have the same strict sign it returns
none rather than a guess. -/
theorem C7_bisection :
    (∃ r, bisection_method f0 0 3 1e-6 100 = some r ∧ |r - 2| < 1e-6) ∧
      ∀ (f : ℝ → ℝ) (a b tol : ℝ) (m : ℕ),
        f a * f b > 0 → bisection_method f a b tol m = none := by
  constructor
  · refine ⟨bisection_loop f0 1e-6 100 0 3 (f0 0) (f0 3), ?_, ?_⟩
    · have hne : ¬(f0 0 * f0 3 > 0) := by norm_num [f0]
      unfold bisection_method
      rw [if_neg hne]
    · have h := bisection_loop_f0 100 0 3 (f0 3) le_rfl (by norm_num)
        (by norm_num) le_rfl (by norm_num)
      simpa [f0] using h
  · intro f a b tol m h
    unfold bisection_method
    rw [if_pos h]

/-- Witness exercising the no-sign-change clause of C7_bisection. -/
theorem C7_witness : bisection_method (fun _ => (1 : ℝ)) 0 1 1e-6 100 = none :=
  C7_bisection.2 (fun _ => (1 : ℝ)) 0 1 1e-6 100 (by norm_num)

end AASHTO

namespace AASHTO

/-! ## Specialised rpow bound lemmas for the exponents 0.75, 0.25, 8.46 -/

/-- Upper bound for a 3/4 power via fourth powers. -/
lemma rpow34_le {x M : ℝ} (hx : 0 ≤ x) (hM : 0 ≤ M) (h : x ^ (3 : ℕ) ≤ M ^ (4 : ℕ)) :
    x ^ ((0.75) : ℝ) ≤ M := by
  have e : ((0.75) : ℝ) = ((3 : ℕ) : ℝ) / ((4 : ℕ) : ℝ) := by norm_num
  rw [e]
  exact rpow_ratio_le 3 4 (by norm_num) hx hM h

/-- Lower bound for a 3/4 power via fourth powers. -/
lemma le_rpow34 {x m : ℝ} (hx : 0 ≤ x) (h : m ^ (4 : ℕ) ≤ x ^ (3 : ℕ)) :
    m ≤ x ^ ((0.75) : ℝ) := by
  have e : ((0.75) : ℝ) = ((3 : ℕ) : ℝ) / ((4 : ℕ) : ℝ) := by norm_num
  rw [e]
  exact le_rpow_ratio 3 4 (by norm_num) hx h

/-- Lower bound for a 1/4 power via fourth powers. -/
lemma le_rpow14 {x m : ℝ} (hx : 0 ≤ x) (h : m ^ (4 : ℕ) ≤ x ^ (1 : ℕ)) :
    m ≤ x ^ ((0.25) : ℝ) := by
  have e : ((0.25) : ℝ) = ((1 : ℕ) : ℝ) / ((4 : ℕ) : ℝ) := by norm_num
  rw [e]
  exact le_rpow_ratio 1 4 (by norm_num) hx h

/-- Exact value of a 1/4 power of a fourth power. -/
lemma rpow14_of_pow4 {a : ℝ} (ha : 0 ≤ a) : (a ^ (4 : ℕ) : ℝ) ^ ((0.25) : ℝ) = a := by
  rw [← Real.rpow_natCast a 4, ← Real.rpow_mul ha]
  norm_num

/-- Upper bound for an 8.46 power via x^(17/2), i.e. square comparison of x^17. -/
lemma rpow846_le {x M : ℝ} (hx : 1 ≤ x) (hM : 0 ≤ M) (h : x ^ (17 : ℕ) ≤ M ^ (2 : ℕ)) :
    x ^ ((8.46) : ℝ) ≤ M := by
  have h1 : x ^ ((8.46) : ℝ) ≤ x ^ (((17 : ℕ) : ℝ) / ((2 : ℕ) : ℝ)) :=
    Real.rpow_le_rpow_of_exponent_le hx (by norm_num)
  exact h1.trans (rpow_ratio_le 17 2 (by norm_num) (by linarith) hM h)

/-- Lower bound for an 8.46 power via the eighth power. -/
lemma le_rpow846 {x m : ℝ} (hx : 1 ≤ x) (h : m ≤ x ^ (8 : ℕ)) :
    m ≤ x ^ ((8.46) : ℝ) := by
  have h1 : x ^ (((8 : ℕ)) : ℝ) ≤ x ^ ((8.46) : ℝ) :=
    Real.rpow_le_rpow_of_exponent_le hx (by norm_num)
  rw [Real.rpow_natCast] at h1
  linarith

/-! ## Claim C4 -/

/-- Claim C4: for positive slab thickness and positive Sc, Cd, J, Ec, k and
delta_PSI, calculate_W18_rigid takes the sentinel branch -999 exactly when
the numerator or denominator inside the term-2 logarithm is non-positive,
and otherwise returns the AASHTO closed form, whose logarithm argument is
then positive. -/
theorem C4_domain_guard (D : ℝ) (p : Params) (hD : 0 < D) (hSc : 0 < p.Sc)
    (hCd : 0 < p.Cd) (hJ : 0 < p.J) (hEc : 0 < p.Ec) (hk : 0 < p.k)
    (hdP : 0 < p.delta_PSI) :
    (inner_num_of D p ≤ 0 ∨ inner_denom_of D p ≤ 0 →
      calculate_W18_rigid D p = -999) ∧
    (¬(inner_num_of D p ≤ 0 ∨ inner_denom_of D p ≤ 0) →
      0 < inner_num_of D p / inner_denom_of D p ∧
      calculate_W18_rigid D p =
        p.ZR * p.S0 + 7.35 * Real.logb 10 (D + 1) - 0.06 +
          Real.logb 10 (p.delta_PSI / 3) / (1 + 1.624e7 / (D + 1) ^ ((8.46) : ℝ)) +
          (4.22 - 0.32 * p.pt) *
            Real.logb 10 (inner_num_of D p / inner_denom_of D p)) := by
  constructor
  · intro h
    unfold calculate_W18_rigid
    rw [if_pos h]
  · intro h
    have h' := h
    push_neg at h'
    refine ⟨div_pos h'.1 h'.2, ?_⟩
    unfold calculate_W18_rigid
    rw [if_neg h]

/-! ## The guard-failing concrete bundle pC6 (Ec = k = 1, so the term-2
denominator is negative for every thickness up to 20 inches) -/

/-- Parameter bundle whose domain guard fails on the whole bracket [0, 20]. -/
def pC6 : Params := ⟨-1.282, 0.35, 2.5, 500, 1, 1, 1, 1, 1.5⟩

/-- For pC6 the term-2 denominator is non-positive on [0, 20]. -/
lemma inner_denom_pC6_nonpos (D : ℝ) (h0 : 0 ≤ D) (h20 : D ≤ 20) :
    inner_denom_of D pC6 ≤ 0 := by
  have hx : D ^ ((0.75) : ℝ) ≤ 18.42 := by
    refine (Real.rpow_le_rpow h0 h20 (by norm_num)).trans ?_
    exact rpow34_le (by norm_num) (by norm_num) (by norm_num)
  simp only [inner_denom_of, pC6]
  have h1 : ((1 : ℝ) / 1) ^ ((0.25) : ℝ) = 1 := by
    norm_num [Real.one_rpow]
  rw [h1]
  nlinarith

/-- For pC6 the capacity function returns the -999 sentinel on [0, 20]. -/
lemma W18_pC6_sentinel (D : ℝ) (h0 : 0 ≤ D) (h20 : D ≤ 20) :
    calculate_W18_rigid D pC6 = -999 := by
  unfold calculate_W18_rigid
  rw [if_pos (Or.inr (inner_denom_pC6_nonpos D h0 h20))]

/-- Witness for C4_domain_guard: at D = 10 the pC6 guard fails and the
sentinel is returned. -/
theorem C4_witness : calculate_W18_rigid 10 pC6 = -999 :=
  (C4_domain_guard 10 pC6 (by norm_num) (by norm_num [pC6]) (by norm_num [pC6])
      (by norm_num [pC6]) (by norm_num [pC6]) (by norm_num [pC6]) (by norm_num [pC6])).1
    (Or.inr (inner_denom_pC6_nonpos 10 (by norm_num) (by norm_num)))

end AASHTO

namespace AASHTO

/-! ## Claim C5 (amended part) and claims C6, C9 on the solver -/

/-- Claim C5 (amended): for W18_design > 0 the solver returns D_min when
objective(D_min) > 0, and returns D_max + 1 when objective(D_min) <= 0 and
objective(D_max) < 0; the two tests are sequential, the first wins.
The positivity hypotheses keep the real model faithful to the source:
with them nothing inside the Python try block can raise. -/
theorem C5_amended (W18 : ℝ) (p : Params) (Dmin Dmax : ℝ) (hW : 0 < W18)
    (hdP : 0 < p.delta_PSI) (hk : 0 < p.k) (hEc : 0 ≤ p.Ec) (hDmin : 0 ≤ Dmin) :
    (0 < calculate_W18_rigid Dmin p - Real.logb 10 W18 →
      find_required_thickness W18 p Dmin Dmax = Except.ok (some Dmin)) ∧
    (calculate_W18_rigid Dmin p - Real.logb 10 W18 ≤ 0 →
      calculate_W18_rigid Dmax p - Real.logb 10 W18 < 0 →
      find_required_thickness W18 p Dmin Dmax = Except.ok (some (Dmax + 1))) := by
  have hW' : ¬(W18 ≤ 0) := not_le.mpr hW
  constructor
  · intro h
    simp only [find_required_thickness, if_neg hW', if_pos h]
  · intro h1 h2
    simp only [find_required_thickness, if_neg hW', if_neg (not_lt.mpr h1), if_pos h2]

/-- Witness for C5_amended: the exceeds-maximum clause at the pC6 bundle. -/
theorem C5_witness :
    find_required_thickness 10 pC6 6 20 = Except.ok (some (20 + 1)) := by
  have hlog : Real.logb 10 (10 : ℝ) = 1 := Real.logb_self_eq_one (by norm_num)
  refine (C5_amended 10 pC6 6 20 (by norm_num) (by norm_num [pC6]) (by norm_num [pC6])
    (by norm_num [pC6]) (by norm_num)).2 ?_ ?_
  · rw [W18_pC6_sentinel 6 (by norm_num) (by norm_num), hlog]
    norm_num
  · rw [W18_pC6_sentinel 20 (by norm_num) (by norm_num), hlog]
    norm_num

/-- Claim C6 (counterexample): with the pC6 bundle the domain guard fails at
both evaluated bracket endpoints (6 and 20), yet the solver returns the
numeric thickness 21 = D_max + 1 derived from the -999 sentinel, not the
no-solution outcome. -/
theorem C6_counterexample :
    calculate_W18_rigid 6 pC6 = -999 ∧ calculate_W18_rigid 20 pC6 = -999 ∧
      find_required_thickness 10 pC6 6 20 = Except.ok (some 21) ∧
      (Except.ok (some (21 : ℝ)) ≠ (Except.ok none : Except Unit (Option ℝ))) := by
  have h6 := W18_pC6_sentinel 6 (by norm_num) (by norm_num)
  have h20 := W18_pC6_sentinel 20 (by norm_num) (by norm_num)
  have hlog : Real.logb 10 (10 : ℝ) = 1 := Real.logb_self_eq_one (by norm_num)
  have hfmin : ¬(0 < calculate_W18_rigid 6 pC6 - Real.logb 10 10) := by
    rw [h6, hlog]
    norm_num
  have hfmax : calculate_W18_rigid 20 pC6 - Real.logb 10 10 < 0 := by
    rw [h20, hlog]
    norm_num
  refine ⟨h6, h20, ?_, by simp⟩
  simp only [find_required_thickness, if_neg (show ¬((10 : ℝ) ≤ 0) by norm_num),
    if_neg hfmin, if_pos hfmax]
  norm_num

/-- Claim C6 (amended): when the domain guard fails at both bracket
endpoints, the -999 sentinel makes both objective values negative (for any
design load of at least 1), so the solver returns the exceeds-maximum
value D_max + 1 without crashing, rather than a no-solution outcome.
The positivity hypotheses keep the real model faithful to the source:
with them nothing inside the Python try block can raise. -/
theorem C6_amended (W18 : ℝ) (p : Params) (Dmin Dmax : ℝ) (h1 : 1 ≤ W18)
    (hdP : 0 < p.delta_PSI) (hk : 0 < p.k) (hEc : 0 ≤ p.Ec) (hDmin : 0 ≤ Dmin)
    (hgmin : inner_num_of Dmin p ≤ 0 ∨ inner_denom_of Dmin p ≤ 0)
    (hgmax : inner_num_of Dmax p ≤ 0 ∨ inner_denom_of Dmax p ≤ 0) :
    find_required_thickness W18 p Dmin Dmax = Except.ok (some (Dmax + 1)) := by
  have hW : (0 : ℝ) < W18 := lt_of_lt_of_le one_pos h1
  have hlog : 0 ≤ Real.logb 10 W18 := Real.logb_nonneg (by norm_num) h1
  have hmin : calculate_W18_rigid Dmin p = -999 := by
    unfold calculate_W18_rigid
    rw [if_pos hgmin]
  have hmax : calculate_W18_rigid Dmax p = -999 := by
    unfold calculate_W18_rigid
    rw [if_pos hgmax]
  have hfmin : ¬(0 < calculate_W18_rigid Dmin p - Real.logb 10 W18) := by
    rw [hmin]
    push_neg
    linarith
  have hfmax : calculate_W18_rigid Dmax p - Real.logb 10 W18 < 0 := by
    rw [hmax]
    linarith
  simp only [find_required_thickness, if_neg (not_le.mpr hW), if_neg hfmin, if_pos hfmax]

/-- Witness for C6_amended at the pC6 bundle. -/
theorem C6_witness :
    find_required_thickness 10 pC6 6 20 = Except.ok (some (20 + 1)) :=
  C6_amended 10 pC6 6 20 (by norm_num) (by norm_num [pC6]) (by norm_num [pC6])
    (by norm_num [pC6]) (by norm_num)
    (Or.inr (inner_denom_pC6_nonpos 6 (by norm_num) (by norm_num)))
    (Or.inr (inner_denom_pC6_nonpos 20 (by norm_num) (by norm_num)))

/-- Claim C9 (counterexample): at W18_design = 0 the initial log10 is
evaluated before the try block, so find_required_thickness raises instead
of returning the no-solution value None. -/
theorem C9_counterexample :
    find_required_thickness 0 pC6 6 20 = Except.error () ∧
      (Except.error () ≠ (Except.ok none : Except Unit (Option ℝ))) := by
  refine ⟨?_, by simp⟩
  simp only [find_required_thickness, if_pos (le_refl (0 : ℝ))]

/-- Claim C9 (amended): find_required_thickness raises exactly for
non-positive design loads (the initial log10 sits outside the try block);
for every positive design load it returns normally. -/
theorem C9_amended (W18 : ℝ) (p : Params) (Dmin Dmax : ℝ) :
    (W18 ≤ 0 → find_required_thickness W18 p Dmin Dmax = Except.error ()) ∧
    (0 < W18 → ∃ r : Option ℝ, find_required_thickness W18 p Dmin Dmax = Except.ok r) := by
  constructor
  · intro h
    simp only [find_required_thickness, if_pos h]
  · intro h
    simp only [find_required_thickness, if_neg (not_le.mpr h)]
    split_ifs <;> exact ⟨_, rfl⟩

/-- Witness for C9_amended: a negative design load raises. -/
theorem C9_witness : find_required_thickness (-1) pC6 6 20 = Except.error () :=
  (C9_amended (-1) pC6 6 20).1 (by norm_num)

end AASHTO

namespace AASHTO

/-! ## The p5 bundle: spec-valid parameters (tiny but positive delta_PSI)
on which log10 W18 strictly decreases from D = 6 to D = 20 -/

/-- Parameter bundle with Ec/k = 9.21^4 (so the term-2 threshold is exactly
2), Sc * Cd = 215.63 * J, and delta_PSI = 3e-12. -/
def p5 : Params := ⟨-1.282, 0.35, 2.5, 431.26, 0.5, 1, 7195.12794081, 1, 3e-12⟩

/-- The modular ratio power of p5 evaluates exactly. -/
lemma Eck_eval : ((7195.12794081 : ℝ) / 1) ^ ((0.25) : ℝ) = 9.21 := by
  have h : ((7195.12794081 : ℝ) / 1) = (9.21 : ℝ) ^ (4 : ℕ) := by norm_num
  rw [h, rpow14_of_pow4 (by norm_num)]

/-- Bounds for 6^0.75. -/
lemma x6_bounds : (3.8 : ℝ) ≤ (6 : ℝ) ^ ((0.75) : ℝ) ∧ (6 : ℝ) ^ ((0.75) : ℝ) ≤ 4 :=
  ⟨le_rpow34 (by norm_num) (by norm_num), rpow34_le (by norm_num) (by norm_num) (by norm_num)⟩

/-- Bounds for 20^0.75. -/
lemma x20_bounds : (9.45 : ℝ) ≤ (20 : ℝ) ^ ((0.75) : ℝ) ∧ (20 : ℝ) ^ ((0.75) : ℝ) ≤ 9.46 :=
  ⟨le_rpow34 (by norm_num) (by norm_num), rpow34_le (by norm_num) (by norm_num) (by norm_num)⟩

/-- The domain guard passes for p5 at D = 6. -/
lemma p5_guard6 : 0 < inner_num_of 6 p5 ∧ 0 < inner_denom_of 6 p5 := by
  obtain ⟨hlo, hhi⟩ := x6_bounds
  constructor
  · simp only [inner_num_of, p5]
    nlinarith
  · simp only [inner_denom_of, p5]
    rw [Eck_eval, show (18.42 : ℝ) / 9.21 = 2 by norm_num]
    nlinarith

/-- The domain guard passes for p5 at D = 20. -/
lemma p5_guard20 : 0 < inner_num_of 20 p5 ∧ 0 < inner_denom_of 20 p5 := by
  obtain ⟨hlo, hhi⟩ := x20_bounds
  constructor
  · simp only [inner_num_of, p5]
    nlinarith
  · simp only [inner_denom_of, p5]
    rw [Eck_eval, show (18.42 : ℝ) / 9.21 = 2 by norm_num]
    nlinarith

/-- Lower bound on the term-1 denominator at D = 6. -/
lemma d6_ge : (2.064 : ℝ) ≤ 1 + 1.624e7 / (7 : ℝ) ^ ((8.46) : ℝ) := by
  have hub : (7 : ℝ) ^ ((8.46) : ℝ) ≤ 15260000 :=
    rpow846_le (by norm_num) (by norm_num) (by norm_num)
  have hpos : (0 : ℝ) < (7 : ℝ) ^ ((8.46) : ℝ) := Real.rpow_pos_of_pos (by norm_num) _
  have hq : (1.624e7 : ℝ) / 15260000 ≤ 1.624e7 / (7 : ℝ) ^ ((8.46) : ℝ) := by
    rw [div_le_div_iff (by norm_num) hpos]
    nlinarith
  have hval : (1.064 : ℝ) ≤ (1.624e7 : ℝ) / 15260000 := by norm_num
  linarith

/-- Upper bound on the term-1 denominator at D = 20. -/
lemma d20_le : 1 + 1.624e7 / (21 : ℝ) ^ ((8.46) : ℝ) ≤ 1.00043 := by
  have hlb : (37822859361 : ℝ) ≤ (21 : ℝ) ^ ((8.46) : ℝ) :=
    le_rpow846 (by norm_num) (by norm_num)
  have hpos : (0 : ℝ) < (21 : ℝ) ^ ((8.46) : ℝ) := Real.rpow_pos_of_pos (by norm_num) _
  have hq : (1.624e7 : ℝ) / (21 : ℝ) ^ ((8.46) : ℝ) ≤ 1.624e7 / 37822859361 := by
    rw [div_le_div_iff hpos (by norm_num)]
    nlinarith
  have hval : (1.624e7 : ℝ) / 37822859361 ≤ 0.00043 := by norm_num
  linarith

/-- Lower bound on the base-10 logarithm of 7. -/
lemma logb_7_ge : (0.84 : ℝ) ≤ Real.logb 10 7 := by
  have h := ratio_le_logb10 (x := 7) 21 25 (by norm_num) (by norm_num) (by norm_num)
  have e : ((21 : ℕ) : ℝ) / ((25 : ℕ) : ℝ) = 0.84 := by norm_num
  linarith [e ▸ h]

/-- Upper bound on the base-10 logarithm of 21. -/
lemma logb_21_le : Real.logb 10 21 ≤ 1.334 := by
  have h := logb10_le_ratio (x := 21) 4 3 (by norm_num) (by norm_num) (by norm_num)
  have e : ((4 : ℕ) : ℝ) / ((3 : ℕ) : ℝ) ≤ 1.334 := by norm_num
  linarith

/-- The design load 0.1 has base-10 logarithm -1. -/
lemma logb_01 : Real.logb 10 (0.1 : ℝ) = -1 := by
  rw [show (0.1 : ℝ) = (10 : ℝ)⁻¹ by norm_num, Real.logb_inv,
    Real.logb_self_eq_one (by norm_num)]

/-- The serviceability term of p5 evaluates to -12. -/
lemma logb_p5_dPSI : Real.logb 10 (p5.delta_PSI / 3) = -12 := by
  have h : p5.delta_PSI / 3 = ((10 : ℝ) ^ (12 : ℕ))⁻¹ := by norm_num [p5]
  rw [h, Real.logb_inv, Real.logb_pow, Real.logb_self_eq_one (by norm_num)]
  norm_num

/-- Lower bound on the capacity of p5 at D = 6. -/
lemma W18_p5_6_lb : (-0.149 : ℝ) ≤ calculate_W18_rigid 6 p5 := by
  obtain ⟨hg1, hg2⟩ := p5_guard6
  have hR : (1 : ℝ) ≤ inner_num_of 6 p5 / inner_denom_of 6 p5 := by
    rw [one_le_div hg2]
    obtain ⟨hlo, hhi⟩ := x6_bounds
    simp only [inner_num_of, inner_denom_of, p5]
    rw [Eck_eval, show (18.42 : ℝ) / 9.21 = 2 by norm_num]
    nlinarith
  have hlogR : 0 ≤ Real.logb 10 (inner_num_of 6 p5 / inner_denom_of 6 p5) :=
    Real.logb_nonneg (by norm_num) hR
  unfold calculate_W18_rigid
  rw [if_neg (not_or.mpr ⟨not_le.mpr hg1, not_le.mpr hg2⟩)]
  have hZR : p5.ZR * p5.S0 = -0.4487 := by norm_num [p5]
  have hcoef : 4.22 - 0.32 * p5.pt = 3.42 := by norm_num [p5]
  rw [hZR, hcoef, logb_p5_dPSI, show ((6 : ℝ) + 1) = 7 by norm_num]
  have hd := d6_ge
  have hdpos : (0 : ℝ) < 1 + 1.624e7 / (7 : ℝ) ^ ((8.46) : ℝ) :=
    lt_of_lt_of_le (by norm_num) hd
  have ht1 : (-5.814 : ℝ) ≤ (-12 : ℝ) / (1 + 1.624e7 / (7 : ℝ) ^ ((8.46) : ℝ)) := by
    rw [neg_div]
    have h12 : (12 : ℝ) / (1 + 1.624e7 / (7 : ℝ) ^ ((8.46) : ℝ)) ≤ 5.814 := by
      rw [div_le_iff hdpos]
      nlinarith
    linarith
  have hlog7 := logb_7_ge
  nlinarith [hlogR]

/-- Upper bound on the capacity of p5 at D = 20. -/
lemma W18_p5_20_ub : calculate_W18_rigid 20 p5 ≤ -1.84 := by
  obtain ⟨hg1, hg2⟩ := p5_guard20
  obtain ⟨hlo, hhi⟩ := x20_bounds
  have hRpos : 0 < inner_num_of 20 p5 / inner_denom_of 20 p5 := div_pos hg1 hg2
  have hR : inner_num_of 20 p5 / inner_denom_of 20 p5 ≤ 1.2 := by
    rw [div_le_iff hg2]
    simp only [inner_num_of, inner_denom_of, p5]
    rw [Eck_eval, show (18.42 : ℝ) / 9.21 = 2 by norm_num]
    nlinarith
  have hlogR : Real.logb 10 (inner_num_of 20 p5 / inner_denom_of 20 p5) ≤ 0.25 := by
    have h := logb10_le_ratio (x := inner_num_of 20 p5 / inner_denom_of 20 p5) 1 4
      (by norm_num) hRpos ?hp
    case hp =>
      have h4 : (inner_num_of 20 p5 / inner_denom_of 20 p5) ^ (4 : ℕ) ≤ (1.2 : ℝ) ^ (4 : ℕ) :=
        pow_le_pow_left hRpos.le hR 4
      calc (inner_num_of 20 p5 / inner_denom_of 20 p5) ^ (4 : ℕ)
          ≤ (1.2 : ℝ) ^ (4 : ℕ) := h4
        _ ≤ (10 : ℝ) ^ (1 : ℕ) := by norm_num
    have e : ((1 : ℕ) : ℝ) / ((4 : ℕ) : ℝ) = 0.25 := by norm_num
    linarith
  unfold calculate_W18_rigid
  rw [if_neg (not_or.mpr ⟨not_le.mpr hg1, not_le.mpr hg2⟩)]
  have hZR : p5.ZR * p5.S0 = -0.4487 := by norm_num [p5]
  have hcoef : 4.22 - 0.32 * p5.pt = 3.42 := by norm_num [p5]
  rw [hZR, hcoef, logb_p5_dPSI, show ((20 : ℝ) + 1) = 21 by norm_num]
  have hd := d20_le
  have hdge : (1 : ℝ) ≤ 1 + 1.624e7 / (21 : ℝ) ^ ((8.46) : ℝ) := by
    have : (0 : ℝ) < 1.624e7 / (21 : ℝ) ^ ((8.46) : ℝ) :=
      div_pos (by norm_num) (Real.rpow_pos_of_pos (by norm_num) _)
    linarith
  have hdpos : (0 : ℝ) < 1 + 1.624e7 / (21 : ℝ) ^ ((8.46) : ℝ) := by linarith
  have ht1 : (-12 : ℝ) / (1 + 1.624e7 / (21 : ℝ) ^ ((8.46) : ℝ)) ≤ -11.994 := by
    rw [neg_div]
    have h12 : (11.994 : ℝ) ≤ 12 / (1 + 1.624e7 / (21 : ℝ) ^ ((8.46) : ℝ)) := by
      rw [le_div_iff hdpos]
      nlinarith
    linarith
  have hlog21 := logb_21_le
  nlinarith [hlogR]

/-- Claim C5 (counterexample): with the spec-valid bundle p5 and design
load 0.1, the objective is positive at D_min = 6 and negative at
D_max = 20, and the solver returns D_min = 6, not D_max + 1 = 21: the two
boundary tests are sequential and the first one wins. -/
theorem C5_counterexample :
    (0 : ℝ) < 0.1 ∧
      0 < calculate_W18_rigid 6 p5 - Real.logb 10 0.1 ∧
      calculate_W18_rigid 20 p5 - Real.logb 10 0.1 < 0 ∧
      find_required_thickness 0.1 p5 6 20 = Except.ok (some 6) ∧
      ((6 : ℝ) ≠ 20 + 1) := by
  have hf6 : 0 < calculate_W18_rigid 6 p5 - Real.logb 10 0.1 := by
    rw [logb_01]
    have := W18_p5_6_lb
    linarith
  have hf20 : calculate_W18_rigid 20 p5 - Real.logb 10 0.1 < 0 := by
    rw [logb_01]
    have := W18_p5_20_ub
    linarith
  refine ⟨by norm_num, hf6, hf20, ?_, by norm_num⟩
  simp only [find_required_thickness, if_neg (show ¬((0.1 : ℝ) ≤ 0) by norm_num),
    if_pos hf6]

/-- Claim C8 (counterexample): for the spec-valid bundle p5 the domain
guard passes at both 6 and 20 inches, yet log10 W18 strictly decreases from
D = 6 to D = 20, so D maps to log10 W18(D) is not non-decreasing on the
valid domain. -/
theorem C8_counterexample :
    (0 < inner_num_of 6 p5 ∧ 0 < inner_denom_of 6 p5) ∧
      (0 < inner_num_of 20 p5 ∧ 0 < inner_denom_of 20 p5) ∧
      (6 : ℝ) < 20 ∧
      calculate_W18_rigid 20 p5 < calculate_W18_rigid 6 p5 := by
  refine ⟨p5_guard6, p5_guard20, by norm_num, ?_⟩
  have h1 := W18_p5_6_lb
  have h2 := W18_p5_20_ub
  linarith

end AASHTO

namespace AASHTO

/-! ## Monotonicity analysis for claim C8 -/

/-- Valid-domain closed form of the capacity equation. -/
lemma W18_formula (D : ℝ) (p : Params) (hn : 0 < inner_num_of D p)
    (hd : 0 < inner_denom_of D p) :
    calculate_W18_rigid D p =
      p.ZR * p.S0 + 7.35 * Real.logb 10 (D + 1) - 0.06 +
        Real.logb 10 (p.delta_PSI / 3) / (1 + 1.624e7 / (D + 1) ^ ((8.46) : ℝ)) +
        (4.22 - 0.32 * p.pt) *
          Real.logb 10 (inner_num_of D p / inner_denom_of D p) := by
  unfold calculate_W18_rigid
  rw [if_neg (not_or.mpr ⟨not_le.mpr hn, not_le.mpr hd⟩)]

/-- The term-2 ratio grows with x when the pole c sits at or below the
zero 1.132 of the numerator. -/
lemma ratio_mono {A B x1 x2 c : ℝ} (hA : 0 < A) (hB : 0 < B) (hc : c ≤ 1.132)
    (h1n : 0 < x1 - 1.132) (h1d : 0 < x1 - c) (h2d : 0 < x2 - c) (hx : x1 ≤ x2) :
    A * (x1 - 1.132) / (B * (x1 - c)) ≤ A * (x2 - 1.132) / (B * (x2 - c)) := by
  rw [div_le_div_iff (mul_pos hB h1d) (mul_pos hB h2d)]
  nlinarith [mul_nonneg (mul_nonneg (mul_nonneg hA.le hB.le) (sub_nonneg.mpr hc))
    (sub_nonneg.mpr hx)]

set_option maxHeartbeats 1000000 in
/-- The 7.35 log10(D+1) gain dominates the drop of the serviceability term
L / (1 + 1.624e7/(D+1)^8.46) whenever the coefficient L has magnitude at
most 0.34: the key algebraic inequality behind the amended monotonicity. -/
lemma capacity_terms_mono (L D1 D2 : ℝ) (hD1 : 0 < D1) (h12 : D1 ≤ D2)
    (hL : |L| ≤ 0.34) :
    7.35 * Real.logb 10 (D1 + 1) + L / (1 + 1.624e7 / (D1 + 1) ^ ((8.46) : ℝ)) ≤
      7.35 * Real.logb 10 (D2 + 1) + L / (1 + 1.624e7 / (D2 + 1) ^ ((8.46) : ℝ)) := by
  have hD2 : 0 < D2 := lt_of_lt_of_le hD1 h12
  have h1p : (0 : ℝ) < D1 + 1 := by linarith
  have h2p : (0 : ℝ) < D2 + 1 := by linarith
  set K : ℝ := 1.624e7 with hK
  have hKpos : (0 : ℝ) < K := by rw [hK]; norm_num
  set t1 := (D1 + 1) ^ ((8.46) : ℝ) with ht1def
  set t2 := (D2 + 1) ^ ((8.46) : ℝ) with ht2def
  have ht1 : 0 < t1 := Real.rpow_pos_of_pos h1p _
  have ht2 : 0 < t2 := Real.rpow_pos_of_pos h2p _
  have ht12 : t1 ≤ t2 := Real.rpow_le_rpow h1p.le (by linarith) (by norm_num)
  have h1K : (0 : ℝ) < t1 + K := by linarith
  have h2K : (0 : ℝ) < t2 + K := by linarith
  have hlog10 : (0 : ℝ) < Real.log 10 := Real.log_pos (by norm_num)
  -- rewrite the two serviceability fractions
  have e1 : L / (1 + K / t1) = L * (t1 / (t1 + K)) := by
    rw [show (1 + K / t1) = (t1 + K) / t1 by rw [add_div, div_self ht1.ne'],
      div_div_eq_mul_div, mul_div_assoc]
  have e2 : L / (1 + K / t2) = L * (t2 / (t2 + K)) := by
    rw [show (1 + K / t2) = (t2 + K) / t2 by rw [add_div, div_self ht2.ne'],
      div_div_eq_mul_div, mul_div_assoc]
  -- rewrite the two logb terms through log t
  have hlt1 : Real.log t1 = 8.46 * Real.log (D1 + 1) := by
    rw [ht1def, Real.log_rpow h1p]
  have hlt2 : Real.log t2 = 8.46 * Real.log (D2 + 1) := by
    rw [ht2def, Real.log_rpow h2p]
  have hlog1 : 7.35 * Real.logb 10 (D1 + 1) =
      7.35 / (8.46 * Real.log 10) * Real.log t1 := by
    rw [Real.logb, hlt1]
    field_simp
    ring
  have hlog2 : 7.35 * Real.logb 10 (D2 + 1) =
      7.35 / (8.46 * Real.log 10) * Real.log t2 := by
    rw [Real.logb, hlt2]
    field_simp
    ring
  rw [e1, e2, hlog1, hlog2]
  -- quantitative facts
  have hlogmono : Real.log t1 ≤ Real.log t2 := (Real.log_le_log_iff ht1 ht2).mpr ht12
  have hlsub : (t2 - t1) / t2 ≤ Real.log t2 - Real.log t1 := by
    have h := Real.log_le_sub_one_of_pos (show (0 : ℝ) < t1 / t2 by positivity)
    rw [Real.log_div ht1.ne' ht2.ne'] at h
    have e : t1 / t2 = 1 - (t2 - t1) / t2 := by
      field_simp
    linarith
  have hdiff : t2 / (t2 + K) - t1 / (t1 + K) = K * (t2 - t1) / ((t1 + K) * (t2 + K)) := by
    field_simp
    ring
  have hnn : 0 ≤ K * (t2 - t1) / ((t1 + K) * (t2 + K)) :=
    div_nonneg (mul_nonneg hKpos.le (by linarith)) (by positivity)
  have hub : K * (t2 - t1) / ((t1 + K) * (t2 + K)) ≤ (t2 - t1) / t2 := by
    rw [div_le_div_iff (by positivity) ht2]
    nlinarith [mul_nonneg (sub_nonneg.mpr ht12)
      (add_nonneg (add_nonneg (mul_nonneg ht1.le ht2.le) (mul_nonneg ht1.le hKpos.le))
        (mul_nonneg hKpos.le hKpos.le))]
  have habs := abs_le.mp hL
  have hX : 0 ≤ t2 / (t2 + K) - t1 / (t1 + K) := by
    rw [hdiff]
    exact hnn
  have hfrac : -0.34 * ((t2 - t1) / t2) ≤ L * (t2 / (t2 + K)) - L * (t1 / (t1 + K)) := by
    have key : (0 : ℝ) ≤ (L + 0.34) * (t2 / (t2 + K) - t1 / (t1 + K)) :=
      mul_nonneg (by linarith [habs.1]) hX
    have step2 : -0.34 * ((t2 - t1) / t2) ≤ -0.34 * (t2 / (t2 + K) - t1 / (t1 + K)) := by
      rw [hdiff]
      linarith [hub]
    linarith [key, step2]
  have hcoe : (0.3475 : ℝ) ≤ 7.35 / (8.46 * Real.log 10) := by
    rw [le_div_iff (by positivity)]
    linarith [log_ten_le, hlog10]
  have hw : 0 ≤ (t2 - t1) / t2 := div_nonneg (by linarith) ht2.le
  have hgain : (0.3475 : ℝ) * ((t2 - t1) / t2) ≤
      7.35 / (8.46 * Real.log 10) * (Real.log t2 - Real.log t1) := by
    have h1 : (0.3475 : ℝ) * ((t2 - t1) / t2) ≤ 0.3475 * (Real.log t2 - Real.log t1) := by
      linarith [hlsub]
    have h2 : (0.3475 : ℝ) * (Real.log t2 - Real.log t1) ≤
        7.35 / (8.46 * Real.log 10) * (Real.log t2 - Real.log t1) := by
      have hnn2 : 0 ≤ Real.log t2 - Real.log t1 := by linarith
      nlinarith [mul_nonneg (show (0 : ℝ) ≤ 7.35 / (8.46 * Real.log 10) - 0.3475 by
        linarith [hcoe]) hnn2]
    linarith
  linarith [hgain, hfrac, hw]

end AASHTO

namespace AASHTO

set_option maxHeartbeats 1000000 in
/-- Claim C8 (amended): for fixed parameters with positive Sc, Cd, J, k,
with Ec at least 71000 k (so the term-2 pole 18.42/(Ec/k)^0.25 sits at or
below the numerator zero 1.132), delta_PSI in [1.4, 3] and pt at most 4.5,
log10 W18 is non-decreasing between any two thicknesses whose lower one
satisfies the domain guard (the upper one then satisfies it too). -/
theorem C8_amended (p : Params) (D1 D2 : ℝ)
    (hSc : 0 < p.Sc) (hCd : 0 < p.Cd) (hJ : 0 < p.J) (hk : 0 < p.k)
    (hEck : 71000 * p.k ≤ p.Ec)
    (hdP1 : 1.4 ≤ p.delta_PSI) (hdP2 : p.delta_PSI ≤ 3)
    (hpt : p.pt ≤ 4.5)
    (hD1 : 0 < D1) (h12 : D1 ≤ D2)
    (hg1n : 0 < inner_num_of D1 p) (hg1d : 0 < inner_denom_of D1 p) :
    calculate_W18_rigid D1 p ≤ calculate_W18_rigid D2 p := by
  have hD2 : 0 < D2 := lt_of_lt_of_le hD1 h12
  have hEk : (71000 : ℝ) ≤ p.Ec / p.k := (le_div_iff hk).mpr (by linarith)
  have hrho : (16.32 : ℝ) ≤ (p.Ec / p.k) ^ ((0.25) : ℝ) :=
    le_trans (le_rpow14 (by norm_num) (by norm_num))
      (Real.rpow_le_rpow (by norm_num) hEk (by norm_num))
  have hrhopos : (0 : ℝ) < (p.Ec / p.k) ^ ((0.25) : ℝ) :=
    lt_of_lt_of_le (by norm_num) hrho
  have hcraw : 18.42 / (p.Ec / p.k) ^ ((0.25) : ℝ) ≤ 1.132 := by
    rw [div_le_iff hrhopos]
    nlinarith [hrho]
  have hx12 : D1 ^ ((0.75) : ℝ) ≤ D2 ^ ((0.75) : ℝ) :=
    Real.rpow_le_rpow hD1.le h12 (by norm_num)
  have hB : (0 : ℝ) < 215.63 * p.J := mul_pos (by norm_num) hJ
  have hA : (0 : ℝ) < p.Sc * p.Cd := mul_pos hSc hCd
  have hx1d : 0 < D1 ^ ((0.75) : ℝ) - 18.42 / (p.Ec / p.k) ^ ((0.25) : ℝ) := by
    by_contra hcon
    push_neg at hcon
    have h := hg1d
    simp only [inner_denom_of] at h
    nlinarith [h, hcon, hB]
  have hx1n : 0 < D1 ^ ((0.75) : ℝ) - 1.132 := by
    by_contra hcon
    push_neg at hcon
    have h := hg1n
    simp only [inner_num_of] at h
    nlinarith [h, hcon, hA]
  have hx2d : 0 < D2 ^ ((0.75) : ℝ) - 18.42 / (p.Ec / p.k) ^ ((0.25) : ℝ) := by linarith
  have hx2n : 0 < D2 ^ ((0.75) : ℝ) - 1.132 := by linarith
  have hg2n : 0 < inner_num_of D2 p := by
    simp only [inner_num_of]
    exact mul_pos hA hx2n
  have hg2d : 0 < inner_denom_of D2 p := by
    simp only [inner_denom_of]
    exact mul_pos hB hx2d
  have hR1pos : 0 < inner_num_of D1 p / inner_denom_of D1 p := div_pos hg1n hg1d
  have hRle : inner_num_of D1 p / inner_denom_of D1 p ≤
      inner_num_of D2 p / inner_denom_of D2 p := by
    simp only [inner_num_of, inner_denom_of]
    exact ratio_mono hA hB hcraw hx1n hx1d hx2d hx12
  have hgam : (0 : ℝ) ≤ 4.22 - 0.32 * p.pt := by linarith
  have pieceB :
      (4.22 - 0.32 * p.pt) * Real.logb 10 (inner_num_of D1 p / inner_denom_of D1 p) ≤
        (4.22 - 0.32 * p.pt) * Real.logb 10 (inner_num_of D2 p / inner_denom_of D2 p) :=
    mul_le_mul_of_nonneg_left (Real.logb_le_logb_of_le (by norm_num) hR1pos hRle) hgam
  have hLle : Real.logb 10 (p.delta_PSI / 3) ≤ 0 :=
    Real.logb_nonpos (by norm_num) (div_nonneg (by linarith) (by norm_num))
      ((div_le_one (by norm_num)).mpr hdP2)
  have hLge : (-0.34 : ℝ) ≤ Real.logb 10 (p.delta_PSI / 3) := by
    have hmono : Real.logb 10 ((1.4 : ℝ) / 3) ≤ Real.logb 10 (p.delta_PSI / 3) :=
      Real.logb_le_logb_of_le (by norm_num) (by norm_num)
        ((div_le_div_right (by norm_num)).mpr hdP1)
    have hval : (-0.34 : ℝ) ≤ Real.logb 10 ((1.4 : ℝ) / 3) := by
      rw [show ((1.4 : ℝ) / 3) = ((15 : ℝ) / 7)⁻¹ by norm_num, Real.logb_inv]
      have h := logb10_le_ratio (x := (15 : ℝ) / 7) 17 50 (by norm_num) (by norm_num)
        (by norm_num)
      have e : ((17 : ℕ) : ℝ) / ((50 : ℕ) : ℝ) = 0.34 := by norm_num
      linarith
    linarith
  have hL : |Real.logb 10 (p.delta_PSI / 3)| ≤ 0.34 := abs_le.mpr ⟨hLge, by linarith⟩
  have pieceA := capacity_terms_mono (Real.logb 10 (p.delta_PSI / 3)) D1 D2 hD1 h12 hL
  rw [W18_formula D1 p hg1n hg1d, W18_formula D2 p hg2n hg2d]
  linarith [pieceA, pieceB]

/-- A fully concrete bundle in the monotone regime: Ec/k = 71000. -/
def pW8 : Params := ⟨-1, 0.35, 2.5, 500, 1, 3, 3550000, 50, 2⟩

/-- Witness for C8_amended at the bundle pW8 between 6 and 8 inches. -/
theorem C8_witness : calculate_W18_rigid 6 pW8 ≤ calculate_W18_rigid 8 pW8 := by
  have hq : (16 : ℝ) ≤ ((3550000 : ℝ) / 50) ^ ((0.25) : ℝ) := by
    rw [show ((3550000 : ℝ) / 50) = 71000 by norm_num]
    exact le_rpow14 (by norm_num) (by norm_num)
  have hqpos : (0 : ℝ) < ((3550000 : ℝ) / 50) ^ ((0.25) : ℝ) :=
    lt_of_lt_of_le (by norm_num) hq
  have hx6 := x6_bounds.1
  refine C8_amended pW8 6 8 (by norm_num [pW8]) (by norm_num [pW8]) (by norm_num [pW8])
    (by norm_num [pW8]) (by norm_num [pW8]) (by norm_num [pW8]) (by norm_num [pW8])
    (by norm_num [pW8]) (by norm_num) (by norm_num) ?_ ?_
  · simp only [inner_num_of, pW8]
    nlinarith [hx6]
  · simp only [inner_denom_of, pW8]
    have hc : 18.42 / ((3550000 : ℝ) / 50) ^ ((0.25) : ℝ) ≤ 18.42 / 16 := by
      rw [div_le_div_iff hqpos (by norm_num)]
      nlinarith [hq]
    nlinarith [hx6, hc]

end AASHTO
